import Mathlib

/-!
Verification development for the catcher_api backend (src/api/views.py).

The development shallowly embeds the item-registry views: the payload
validation and normalization helpers of ItemsAPIView, the ownership-scoped
CRUD handlers, the registry-wide search handler, the analytics ratio
computation, and the payment verification computation.  The abstract record
store of the specification is embedded as a list of rows; the Python/JSON
value universe is embedded as an inductive type with Python truthiness,
string coercion and numeric coercion modelled explicitly (ASCII semantics
for lower-casing and whitespace-stripping, the decimal fragment of numeric
literal parsing).  Mutating handlers additionally return the list of store
operations they attempted, so that statements about which store calls a
request performs are expressible.
-/

namespace Catcher

/-- Scalar JSON values: array elements of a request body.  The views only
ever apply Python str() to array elements, so arrays are embedded one
level deep with scalar entries. -/
inductive SVal where
  | null
  | bool (b : Bool)
  | num (q : ℚ)
  | str (s : String)
deriving DecidableEq

/-- JSON values of a request body or query-parameter map.  Numbers are
embedded as exact rationals. -/
inductive JVal where
  | null
  | bool (b : Bool)
  | num (q : ℚ)
  | str (s : String)
  | arr (xs : List SVal)
deriving DecidableEq

/-- A request data map (request.data or request.query_params): keys with
JSON values, first binding wins, as in a Python dict built from JSON. -/
def FieldMap := List (String × JVal)

/-- dict.get: the first value bound to the key, if any. -/
def pyGet : FieldMap → String → Option JVal
  | [], _ => none
  | (k, v) :: rest, key => if k = key then some v else pyGet rest key

/-- Python truthiness of a scalar value. -/
def pyTruthyS : SVal → Bool
  | .null => false
  | .bool b => b
  | .num q => q != 0
  | .str s => s != ""

/-- Python truthiness of a JSON value. -/
def pyTruthy : JVal → Bool
  | .null => false
  | .bool b => b
  | .num q => q != 0
  | .str s => s != ""
  | .arr xs => !xs.isEmpty

/-- Python x or y: x when truthy, else y. -/
def pyOr (v : Option JVal) (d : JVal) : JVal :=
  match v with
  | none => d
  | some x => if pyTruthy x then x else d

/-- ASCII lower-casing of one character, as Python str.lower does on the
ASCII range (the enum values and all inputs the claims touch are ASCII). -/
def lowChar (c : Char) : Char :=
  if 'A' ≤ c ∧ c ≤ 'Z' then Char.ofNat (c.toNat + 32) else c

/-- Python str.lower (ASCII fragment). -/
def pyLower (s : String) : String := ⟨s.data.map lowChar⟩

/-- ASCII whitespace, the characters Python str.strip removes on the
inputs modelled here. -/
def isSp (c : Char) : Bool := c == ' ' || c == '\t' || c == '\n' || c == '\r'

/-- Python str.strip: drop leading and trailing whitespace. -/
def pyStrip (s : String) : String :=
  ⟨((s.data.dropWhile isSp).reverse.dropWhile isSp).reverse⟩

/-- Decimal digits of a natural number, most significant first. -/
def natDigits (n : ℕ) : List Char :=
  if h : n < 10 then [Char.ofNat (48 + n)]
  else natDigits (n / 10) ++ [Char.ofNat (48 + n % 10)]
  termination_by n
  decreasing_by exact Nat.div_lt_self (by omega) (by omega)

/-- Rendering of an integer in decimal. -/
def intRender (n : ℤ) : String :=
  (if n < 0 then "-" else "") ++ ⟨natDigits n.natAbs⟩

/-- Python str() of a rational number.  The views only use str() on
non-string values to test membership in the status enum, which no numeric
rendering can satisfy; the rendering is a plain num/den form rather than
Python float formatting. -/
def ratRender (q : ℚ) : String :=
  if q.den = 1 then intRender q.num else intRender q.num ++ "/" ++ ⟨natDigits q.den⟩

/-- Python str() of a scalar value. -/
def pyStrS : SVal → String
  | .null => "None"
  | .bool b => if b then "True" else "False"
  | .num q => ratRender q
  | .str s => s

/-- Python str() of a JSON value. -/
def pyStr : JVal → String
  | .null => "None"
  | .bool b => if b then "True" else "False"
  | .num q => ratRender q
  | .str s => s
  | .arr xs => "[" ++ String.intercalate ", " (xs.map pyStrS) ++ "]"

/-- The expression (data.get(k) or "").strip of the views, before the strip:
the value when present and truthy, else the empty string.  Python raises
AttributeError when the truthy value is not a string; that case is none. -/
def getFieldStr (data : FieldMap) (k : String) : Option String :=
  match pyOr (pyGet data k) (JVal.str "") with
  | .str s => some s
  | _ => none

/-- Truncation of a rational toward zero, as Python int() on a number. -/
def pyTrunc (q : ℚ) : ℤ := Int.tdiv q.num q.den

/-- Integer-literal parse of a character list: optional sign then digits,
as Python int() on an already-stripped string (underscore separators of
numeric literals are not modelled). -/
def intCharsCore : List Char → Option ℤ
  | [] => none
  | cs =>
    let (sign, body) : ℤ × List Char :=
      match cs with
      | '-' :: rest => (-1, rest)
      | '+' :: rest => (1, rest)
      | _ => (1, cs)
    if body ≠ [] ∧ body.all Char.isDigit then
      some (sign * (body.foldl (fun acc c => acc * 10 + (c.toNat - 48)) 0 : ℕ))
    else none

/-- Python int() on a string: strip whitespace, then an integer literal. -/
def pyParseIntStr (s : String) : Option ℤ := intCharsCore (pyStrip s).data

/-- Python int() on a JSON value: the defined cases; none embeds the
TypeError/ValueError exception. -/
def pyToInt : JVal → Option ℤ
  | .null => none
  | .bool b => some (if b then 1 else 0)
  | .num q => some (pyTrunc q)
  | .str s => pyParseIntStr s
  | .arr _ => none

/-- Python float() on a string (decimal fragment): optional sign, digits
with an optional fractional part, optional decimal exponent; inf/nan and
underscore separators are not modelled.  The claims only rely on the
failure of non-numeric strings and the success of plain decimals. -/
def floatChars (cs : List Char) : Option ℚ :=
  let (sign, body) : ℚ × List Char :=
    match cs with
    | '-' :: rest => (-1, rest)
    | '+' :: rest => (1, rest)
    | _ => (1, cs)
  let ip := body.takeWhile Char.isDigit
  let rest1 := body.dropWhile Char.isDigit
  let (fp, rest2) : List Char × List Char :=
    match rest1 with
    | '.' :: r => (r.takeWhile Char.isDigit, r.dropWhile Char.isDigit)
    | _ => ([], rest1)
  if ip = [] ∧ fp = [] then none
  else
    let mant : ℕ := (ip ++ fp).foldl (fun acc c => acc * 10 + (c.toNat - 48)) 0
    let base : ℚ := sign * mant * (10 : ℚ) ^ (-(fp.length : ℤ))
    match rest2 with
    | [] => some base
    | e :: r =>
      if e = 'e' ∨ e = 'E' then
        let (esign, edig) : ℤ × List Char :=
          match r with
          | '-' :: r2 => (-1, r2)
          | '+' :: r2 => (1, r2)
          | _ => (1, r)
        if edig ≠ [] ∧ edig.all Char.isDigit then
          some (base * (10 : ℚ) ^
            (esign * (edig.foldl (fun acc c => acc * 10 + (c.toNat - 48)) 0 : ℕ)))
        else none
      else none

/-- Python float() on a string: strip whitespace, then a decimal literal. -/
def pyParseFloat (s : String) : Option ℚ := floatChars (pyStrip s).data

/-! ## Validation and normalization (ItemsAPIView static helpers) -/

/-- ItemsAPIView._parse_int: int(value) with a default on TypeError or
ValueError. -/
def parse_int (value : Option JVal) (default : ℤ) : ℤ :=
  match value with
  | none => default
  | some v => (pyToInt v).getD default

/-- ItemsAPIView._coerce_fee: None or the empty string give no fee; then
float(value), where conversion failure also gives no fee rather than an
error. -/
def coerce_fee (value : JVal) : Option ℚ :=
  if value = JVal.null ∨ value = JVal.str "" then none
  else
    match value with
    | .num q => some q
    | .bool b => some (if b then 1 else 0)
    | .str s => pyParseFloat s
    | _ => none

/-- ItemsAPIView._coerce_images: a list has each element coerced with
str(); a string is split on commas with blank parts dropped, an empty
result meaning absent; any other type is absent. -/
def coerce_images (value : JVal) : Option (List String) :=
  match value with
  | .null => none
  | .arr xs => some (xs.map pyStrS)
  | .str s =>
    let parts := ((s.splitOn ",").map pyStrip).filter (fun p => p != "")
    if parts.isEmpty then none else some parts
  | _ => none

/-- The status enum. -/
def allowedStatus : List String := ["safe", "stolen", "unknown"]

/-- ItemsAPIView._validate_status: None stays None; otherwise str(value)
is lower-cased and kept only when it is one of safe, stolen, unknown. -/
def validate_status (value : JVal) : Option String :=
  match value with
  | .null => none
  | v =>
    let s := pyLower (pyStr v)
    if s ∈ allowedStatus then some s else none

/-- Structured error bodies the views return. -/
inductive ErrVal where
  | detail (d : String)
  | fields (d : String) (fs : List String)
  | plain (s : String)
  | internal
deriving DecidableEq

/-- Result of ItemsAPIView._build_payload: a normalized payload as a
key-value list in insertion order, a structured validation error, or a
Python exception (non-string truthy name or serial_number) that the view
turns into a 500. -/
inductive BuildOut where
  | exc
  | err (e : ErrVal)
  | ok (p : List (String × JVal))
deriving DecidableEq

/-- Copy-through of an optional field when its key is present. -/
def optCopy (data : FieldMap) (k : String) : List (String × JVal) :=
  match pyGet data k with
  | some v => [(k, v)]
  | none => []

/-- Encoding of a coerced images value back into the payload dict. -/
def encImages : Option (List String) → JVal
  | none => .null
  | some xs => .arr (xs.map SVal.str)

/-- Encoding of a coerced fee value back into the payload dict. -/
def encFee : Option ℚ → JVal
  | none => .null
  | some q => .num q

/-- ItemsAPIView._build_payload (src/api/views.py lines 55-106): trims the
required fields, collects missing ones when required, copies optional
fields through by key presence, coerces images and fee leniently,
validates status strictly, and always appends an updated_at stamp. -/
def build_payload (data : FieldMap) (require_required_fields : Bool)
    (now : String) : BuildOut :=
  match getFieldStr data "name", getFieldStr data "serial_number" with
  | some nameRaw, some serialRaw =>
    let name := pyStrip nameRaw
    let serial_number := pyStrip serialRaw
    let missing := (if name = "" then ["name"] else []) ++
      (if serial_number = "" then ["serial_number"] else [])
    if require_required_fields && !missing.isEmpty then
      .err (.fields "Missing required field(s)" missing)
    else
      let p0 := (if name ≠ "" then [("name", JVal.str name)] else []) ++
        (if serial_number ≠ "" then [("serial_number", JVal.str serial_number)] else [])
      let p1 := p0 ++ optCopy data "description" ++ optCopy data "category" ++
        optCopy data "contact_info" ++ optCopy data "owner" ++ optCopy data "image_url"
      let p2 := p1 ++ (match pyGet data "images" with
        | some v => [("images", encImages (coerce_images v))]
        | none => [])
      let p3 := p2 ++ (match pyGet data "fee" with
        | some v => [("fee", encFee (coerce_fee v))]
        | none => [])
      match pyGet data "status" with
      | some v =>
        match validate_status v with
        | none => .err (.detail "Invalid status. Must be one of: safe, stolen, unknown")
        | some sv => .ok (p3 ++ [("status", JVal.str sv), ("updated_at", JVal.str now)])
      | none => .ok (p3 ++ [("updated_at", JVal.str now)])
  | _, _ => .exc

/-! ## The record store

Modelled from the spec: the record store adapter of spec section 6 is an
abstract tabular store with equality and pattern filters, an exact count,
an ordered inclusive-range fetch, and single-row select returning the
matching row or nothing.  A store is a list of rows holding the columns
the claims read; insert/update/delete calls are recorded as trace events
rather than applied, since the claims speak about which calls a request
attempts. -/

/-- A stored item row, restricted to the columns the claims read. -/
structure Item where
  id : ℕ
  user_id : String
  name : String
  serial_number : String
  description : Option String
  category : Option String
  status : Option String
  created_at : ℕ
deriving DecidableEq

/-- Case-insensitive substring match, the ilike %pattern% filter. -/
def containsCI (hay pat : String) : Bool :=
  let h := (pyLower hay).data
  let p := (pyLower pat).data
  (List.range (h.length + 1)).any (fun i => (h.drop i).take p.length == p)

/-- ilike on a nullable column: SQL NULL matches nothing. -/
def optContainsCI (hay : Option String) (pat : String) : Bool :=
  match hay with
  | some h => containsCI h pat
  | none => false

/-- Single-row select filtered by id and user_id, the
.eq('id', ...).eq('user_id', ...).single() chain: the matching row, if
any. -/
def selectSingle (store : List Item) (iid : ℕ) (uid : String) : Option Item :=
  (store.filter (fun r => r.id == iid && r.user_id == uid)).head?

/-- Descending insertion by created_at. -/
def insertDesc (x : Item) : List Item → List Item
  | [] => [x]
  | y :: ys =>
    if x.created_at ≤ y.created_at then y :: insertDesc x ys
    else x :: y :: ys

/-- order('created_at', desc=True): rows sorted by created_at
descending. -/
def sortDesc : List Item → List Item
  | [] => []
  | x :: xs => insertDesc x (sortDesc xs)

/-- range(offset, max(offset+limit-1, offset)): the inclusive row range
the list and search views request, applied to the ordered rows. -/
def pageSlice (rows : List Item) (offset limit : ℤ) : List Item :=
  let lo := offset
  let hi := max (offset + limit - 1) offset
  (rows.drop lo.toNat).take (hi - lo + 1).toNat

/-- Store calls a mutating request attempts, in order. -/
inductive StoreOp where
  | selectOne (iid : ℕ) (uid : String)
  | countQ
  | selectList
  | insertRow (p : List (String × JVal))
  | updateRow (iid : ℕ) (uid : String) (p : List (String × JVal))
  | deleteRow (iid : ℕ) (uid : String)
deriving DecidableEq

/-- Response data bodies. -/
inductive RData where
  | item (it : Item)
  | items (xs : List Item)
  | row (p : List (String × JVal))
  | idOnly (iid : ℕ)
  | verify (verified : Bool) (statusStr : String) (amount : ℤ)
  | analytics (total safeC stolenC unknownC : ℕ) (rSafe rStolen rUnknown : ℚ)
deriving DecidableEq

/-- Modelled from the spec: the uniform response envelope of
utils.response.ResponseMixin (the module is not under src/), carrying
data, error, message and the pagination fields next/previous/count, plus
the HTTP status code. -/
structure Resp where
  status_code : ℕ
  data : Option RData
  error : Option ErrVal
  message : Option String
  count : Option ℕ
  next : Option ℤ
  previous : Option ℤ
deriving DecidableEq

/-- The 401 response every handler returns when the caller is not
authenticated. -/
def resp401 : Resp := ⟨401, none, some (.plain "Authentication required"), none, none, none, none⟩

/-- A 500 response converting an uncaught exception. -/
def resp500 (msg : String) : Resp := ⟨500, none, some .internal, some msg, none, none, none⟩

/-! ## Item lifecycle handlers (ItemsAPIView) -/

/-- GET /items/id/ (src/api/views.py lines 128-157): single-row fetch
filtered by id and user_id; an absent row, including a row owned by
another user, is a 404.  The int() conversion of the path parameter is
upstream of the model. -/
def items_get_one (auth : Bool) (uid : String) (iid : ℕ) (store : List Item) : Resp :=
  if auth then
    match selectSingle store iid uid with
    | none => ⟨404, none, some (.detail "Item not found"), some "Item could not be found.", none, none, none⟩
    | some it => ⟨200, some (.item it), none, some "Item retrieved successfully.", none, none, none⟩
  else resp401

/-- The row filter of the list view: the caller's rows, and when the
query is non-empty also the ilike or-clause over name and description. -/
def listMatch (uid query : String) (r : Item) : Bool :=
  r.user_id == uid &&
    (query == "" || (containsCI r.name query || optContainsCI r.description query))

/-- GET /items/ core (src/api/views.py lines 163-200), after parameter
parsing: an exact count over the filter, the page over the ordered rows
for the inclusive range starting at offset, and the next/previous offset
cursors. -/
def list_core (uid : String) (store : List Item) (limit offset : ℤ)
    (query : String) : Resp :=
  let rows := store.filter (listMatch uid query)
  let total_count := rows.length
  let page := pageSlice (sortDesc rows) offset limit
  ⟨200, some (.items page), none, none, some total_count,
    if offset + limit < (total_count : ℤ) then some (offset + limit) else none,
    if 0 < offset then some (offset - limit) else none⟩

/-- GET /items/ (list branch): parameter extraction then the core. -/
def items_list (auth : Bool) (uid : String) (qparams : FieldMap)
    (store : List Item) : Resp :=
  if auth then
    let limit := parse_int (pyGet qparams "limit") 30
    let offset := parse_int (pyGet qparams "offset") 0
    match getFieldStr qparams "query" with
    | none => resp500 "An unknown error occurred"
    | some qR => list_core uid store limit offset (pyStrip qR)
  else resp401

/-- POST /items/ (src/api/views.py lines 210-280): validate with required
fields, inject user_id server-side, insert.  The store's insert call
returns the inserted row, so the serial_number fallback re-select of
lines 256-266 is not taken. -/
def items_post (auth : Bool) (uid : String) (data : FieldMap) (now : String) :
    Resp × List StoreOp :=
  if auth then
    match build_payload data true now with
    | .exc => (resp500 "Failed to create item", [])
    | .err e => (⟨400, none, some e, none, none, none, none⟩, [])
    | .ok p =>
      let payload := p ++ [("user_id", JVal.str uid)]
      (⟨201, some (.row payload), none, some "Item created successfully.", none, none, none⟩,
       [.insertRow payload])
  else (resp401, [])

/-- Projection of a payload value onto a text column. -/
def asOptStr : JVal → Option String
  | .null => none
  | v => some (pyStr v)

/-- The row produced by applying an update payload to a stored row, for
the columns the model tracks. -/
def applyPayload (p : List (String × JVal)) (r : Item) : Item :=
  ⟨r.id, r.user_id,
    (match pyGet p "name" with | some (.str s) => s | _ => r.name),
    (match pyGet p "serial_number" with | some (.str s) => s | _ => r.serial_number),
    (match pyGet p "description" with | some v => asOptStr v | none => r.description),
    (match pyGet p "category" with | some v => asOptStr v | none => r.category),
    (match pyGet p "status" with | some (.str s) => some s | _ => r.status),
    r.created_at⟩

/-- PATCH and PUT /items/id/ (src/api/views.py lines 282-362 and 364-445;
the two bodies are line-for-line the same logic, differing only in the
require_required_fields flag): ownership check first, then validation,
then the ownership-scoped update; the store's update call returns the
updated rows, so the re-fetch branch is only taken when it matches no
row. -/
def items_patch_put (require_required_fields : Bool) (auth : Bool) (uid : String)
    (item_id : Option ℕ) (data : FieldMap) (now : String) (store : List Item) :
    Resp × List StoreOp :=
  if auth then
    match item_id with
    | none => (⟨400, none, some (.detail "Item id is required"), none, none, none, none⟩, [])
    | some iid =>
      match selectSingle store iid uid with
      | none =>
        (⟨404, none, some (.detail "Item not found"), none, none, none, none⟩,
         [.selectOne iid uid])
      | some _ =>
        match build_payload data require_required_fields now with
        | .exc => (resp500 "Failed to update item", [.selectOne iid uid])
        | .err e =>
          (⟨400, none, some e, none, none, none, none⟩, [.selectOne iid uid])
        | .ok p =>
          if p.isEmpty then
            (⟨400, none, some (.detail "No valid fields to update"), none, none, none, none⟩,
             [.selectOne iid uid])
          else
            let applied := (store.filter (fun r => r.id == iid && r.user_id == uid)).map
              (applyPayload p)
            match applied.head? with
            | some x =>
              (⟨200, some (.item x), none, some "Item updated successfully.", none, none, none⟩,
               [.selectOne iid uid, .updateRow iid uid p])
            | none =>
              (⟨200, (selectSingle store iid uid).map .item, none,
                  some "Item updated successfully.", none, none, none⟩,
               [.selectOne iid uid, .updateRow iid uid p, .selectOne iid uid])
  else (resp401, [])

/-- PATCH /items/id/. -/
def items_patch : Bool → String → Option ℕ → FieldMap → String → List Item →
    Resp × List StoreOp := items_patch_put false

/-- PUT /items/id/. -/
def items_put : Bool → String → Option ℕ → FieldMap → String → List Item →
    Resp × List StoreOp := items_patch_put true

/-- DELETE /items/id/ (src/api/views.py lines 447-498): existence and
ownership check, then the ownership-scoped delete. -/
def items_delete (auth : Bool) (uid : String) (item_id : Option ℕ)
    (store : List Item) : Resp × List StoreOp :=
  if auth then
    match item_id with
    | none => (⟨400, none, some (.detail "Item id is required"), none, none, none, none⟩, [])
    | some iid =>
      match selectSingle store iid uid with
      | none =>
        (⟨404, none, some (.detail "Item not found"), none, none, none, none⟩,
         [.selectOne iid uid])
      | some _ =>
        (⟨200, some (.idOnly iid), none, some "Item deleted successfully.", none, none, none⟩,
         [.selectOne iid uid, .deleteRow iid uid])
  else (resp401, [])

/-! ## Registry search (SearchRegistry) -/

/-- The registry-wide search filter: the free-text or-clause over name,
description, category and serial_number, plus the exact-match filters. -/
def searchMatch (query category status_val serial_number : String) (r : Item) : Bool :=
  (query == "" || (containsCI r.name query || optContainsCI r.description query ||
    optContainsCI r.category query || containsCI r.serial_number query)) &&
  (category == "" || r.category == some category) &&
  (status_val == "" || r.status == some status_val) &&
  (serial_number == "" || r.serial_number == serial_number)

/-- POST /registry/search/ core (src/api/views.py lines 528-566), after
field extraction: the supplied status is validated against the enum
before any store call is executed; count and page queries share the
filter set. -/
def search_core (store : List Item) (query category status_val serial_number : String)
    (limit offset : ℤ) : Resp × List StoreOp :=
  if status_val ≠ "" ∧ status_val ∉ allowedStatus then
    (⟨400, none, some (.detail "Invalid status. Must be one of: safe, stolen, unknown"), none, none, none, none⟩, [])
  else
    let rows := store.filter (searchMatch query category status_val serial_number)
    let total_count := rows.length
    let page := pageSlice (sortDesc rows) offset limit
    (⟨200, some (.items page), none, some "Registry search completed.", some total_count,
      if offset + limit < (total_count : ℤ) then some (offset + limit) else none,
      if 0 < offset then some (offset - limit) else none⟩,
     [.countQ, .selectList])

/-- POST /registry/search/ (no authentication check by design): field
extraction, then the core. -/
def search_registry (data : FieldMap) (store : List Item) : Resp × List StoreOp :=
  match getFieldStr data "query", getFieldStr data "category",
        getFieldStr data "status", getFieldStr data "serial_number" with
  | some qR, some cR, some sR, some snR =>
    search_core store (pyStrip qR) (pyStrip cR) (pyLower (pyStrip sR)) (pyStrip snR)
      (parse_int (pyGet data "limit") 30) (parse_int (pyGet data "offset") 0)
  | _, _, _, _ => (resp500 "Failed to search registry", [])

/-! ## Analytics (ItemsAnalyticsAPIView) -/

/-- Round-half-to-even of an exact rational, the reading of Python round
on the exact value; Python applies it to the binary double. -/
def roundHE (x : ℚ) : ℤ :=
  let f := ⌊x⌋
  if x - f < 1/2 then f
  else if (1 : ℚ)/2 < x - f then f + 1
  else if f % 2 = 0 then f else f + 1

/-- round(x, 2): two decimal places. -/
def round2 (x : ℚ) : ℚ := (roundHE (x * 100) : ℚ) / 100

/-- The pct helper of the analytics view (src/api/views.py lines
707-708): round((n / total) * 100.0, 2) when the total is positive, else
0.0, with floats read as exact rationals. -/
def pct (n total : ℕ) : ℚ :=
  if 0 < total then round2 ((n : ℚ) / (total : ℚ) * 100) else 0

/-- GET /items/analytics/, restricted to the totals and ratios blocks
(src/api/views.py lines 613-635 and 707-721): four independent exact
counts scoped to the caller, and the per-status percentage ratios.  The
last_updated_at, recent-window, top-category and recent-item blocks of
the view are outside every claim and are not embedded. -/
def analytics_core (auth : Bool) (uid : String) (store : List Item) : Resp :=
  if auth then
    let total := (store.filter (fun r => r.user_id == uid)).length
    let safeC := (store.filter (fun r => r.user_id == uid && r.status == some "safe")).length
    let stolenC := (store.filter (fun r => r.user_id == uid && r.status == some "stolen")).length
    let unknownC := (store.filter (fun r => r.user_id == uid && r.status == some "unknown")).length
    ⟨200, some (.analytics total safeC stolenC unknownC
        (pct safeC total) (pct stolenC total) (pct unknownC total)),
      none, some "Items analytics fetched successfully.", none, none, none⟩
  else resp401

/-! ## Payment verification (PaystackPaymentAPIView) -/

/-- The fixed fee in NGN (src/api/views.py line 757). -/
def FEE_NGN : ℤ := 100

/-- GET /payments/verify/ result computation (src/api/views.py lines
870-887), given that the gateway reported a transaction: the gateway
status string is lower-cased, the amount converted with int() after an
or-0 default, and verified is success together with amount at least the
fixed fee in minor units.  The reference, gateway_response, paid_at and
channel pass-throughs do not affect verified and are not embedded; a
non-string truthy status or an unconvertible amount raises and becomes
the 500 branch. -/
def paystack_verify (auth : Bool) (gwStatus gwAmount : Option JVal) : Resp :=
  if auth then
    match pyOr gwStatus (JVal.str "") with
    | .str s =>
      let status_str := pyLower s
      match pyToInt (pyOr gwAmount (JVal.num 0)) with
      | none => resp500 "Failed to verify payment"
      | some amount =>
        let verified := status_str == "success" && decide (FEE_NGN * 100 ≤ amount)
        ⟨200, some (.verify verified status_str amount), none, some "Verification complete",
          none, none, none⟩
    | _ => resp500 "Failed to verify payment"
  else resp401

/-! ## Concrete fixtures -/

/-- A stored item owned by user u. -/
def itemA : Item := ⟨1, "u", "bike", "sn1", none, none, some "safe", 1⟩

/-- A one-item store. -/
def demo1 : List Item := [itemA]

/-- Five items for user u with distinct creation times. -/
def demo5 : List Item :=
  [⟨1, "u", "a", "s1", none, none, some "safe", 1⟩,
   ⟨2, "u", "b", "s2", none, none, some "safe", 2⟩,
   ⟨3, "u", "c", "s3", none, none, some "safe", 3⟩,
   ⟨4, "u", "d", "s4", none, none, some "safe", 4⟩,
   ⟨5, "u", "e", "s5", none, none, some "safe", 5⟩]

/-- Three items for user u: two safe, one stolen. -/
def demo3 : List Item :=
  [⟨1, "u", "a", "s1", none, none, some "safe", 1⟩,
   ⟨2, "u", "b", "s2", none, none, some "safe", 2⟩,
   ⟨3, "u", "c", "s3", none, none, some "stolen", 3⟩]

/-! ## Helper lemmas -/

/-- Created-at descending order between two rows. -/
def cge (a b : Item) : Prop := b.created_at ≤ a.created_at

/-- The item page carried by a list or search response. -/
def respItems (r : Resp) : List Item :=
  match r.data with
  | some (.items xs) => xs
  | _ => []

theorem mem_insertDesc {x y : Item} {l : List Item} :
    y ∈ insertDesc x l ↔ y = x ∨ y ∈ l := by
  induction l with
  | nil => simp [insertDesc]
  | cons z zs ih =>
    simp only [insertDesc]
    split <;> (simp only [List.mem_cons, ih]; try tauto)

theorem pairwise_insertDesc (x : Item) (l : List Item) (h : l.Pairwise cge) :
    (insertDesc x l).Pairwise cge := by
  induction l with
  | nil => simp [insertDesc]
  | cons z zs ih =>
    rw [List.pairwise_cons] at h
    simp only [insertDesc]
    by_cases hc : x.created_at ≤ z.created_at
    · rw [if_pos hc, List.pairwise_cons]
      refine ⟨fun w hw => ?_, ih h.2⟩
      rcases mem_insertDesc.mp hw with hwx | hwz
      · subst hwx
        exact hc
      · exact h.1 w hwz
    · rw [if_neg hc, List.pairwise_cons]
      refine ⟨fun w hw => ?_, List.pairwise_cons.mpr h⟩
      rcases List.mem_cons.mp hw with hwz | hwzs
      · subst hwz
        unfold cge
        omega
      · have h1 : cge z w := h.1 w hwzs
        unfold cge at h1 ⊢
        omega

theorem sortDesc_pairwise (l : List Item) : (sortDesc l).Pairwise cge := by
  induction l with
  | nil => simp [sortDesc]
  | cons x xs ih => exact pairwise_insertDesc x (sortDesc xs) ih

theorem length_insertDesc (x : Item) (l : List Item) :
    (insertDesc x l).length = l.length + 1 := by
  induction l with
  | nil => rfl
  | cons z zs ih =>
    simp only [insertDesc]
    split
    · simp [ih]
    · simp

theorem length_sortDesc (l : List Item) : (sortDesc l).length = l.length := by
  induction l with
  | nil => rfl
  | cons x xs ih => simp [sortDesc, length_insertDesc, ih]

theorem pageSlice_sublist (rows : List Item) (offset limit : ℤ) :
    List.Sublist (pageSlice rows offset limit) rows :=
  (List.take_sublist _ _).trans (List.drop_sublist _ _)

theorem length_pageSlice (rows : List Item) (offset limit : ℤ) :
    (pageSlice rows offset limit).length =
      min (max limit 1).toNat (rows.length - offset.toNat) := by
  simp only [pageSlice, List.length_take, List.length_drop]
  congr 1
  omega

/-! ## Claims -/

/-- C1: the claim that an authenticated update whose payload carries no
recognized item field fails with NoFieldsToUpdate (400) and performs no
store update is contradicted by the code: build_payload stamps updated_at
unconditionally, so the payload dict is never empty, the
No-valid-fields-to-update branch of the update handlers is unreachable,
and an empty PATCH body on an owned item yields 200 together with an
update call whose payload is exactly the updated_at stamp. -/
theorem C1_empty_update_not_rejected :
    items_patch true "u" (some 1) [] "T" demo1 =
      (⟨200, some (.item itemA), none, some "Item updated successfully.", none, none, none⟩,
       [.selectOne 1 "u", .updateRow 1 "u" [("updated_at", JVal.str "T")]]) ∧
    (items_patch true "u" (some 1) [] "T" demo1).1.status_code ≠ 400 ∧
    items_put true "u" (some 1) [] "T" demo1 =
      (⟨400, none, some (.fields "Missing required field(s)" ["name", "serial_number"]),
        none, none, none, none⟩, [.selectOne 1 "u"]) := by
  decide

/-- C2: for every stored item and authenticated caller whose id differs
from the item's owner, GetOne returns the generic 404 Item-not-found
response with no data, and the full response equals the one produced over
a store holding no row with that id at all. -/
theorem C2_getone_cross_user (store : List Item) (it : Item) (uid : String)
    (hmem : it ∈ store) (hne : uid ≠ it.user_id)
    (hid : ∀ r ∈ store, r.id = it.id → r.user_id = it.user_id) :
    items_get_one true uid it.id store =
      ⟨404, none, some (.detail "Item not found"), some "Item could not be found.",
        none, none, none⟩ ∧
    items_get_one true uid it.id store =
      items_get_one true uid it.id (store.filter (fun r => r.id != it.id)) := by
  have h1 : store.filter (fun r => r.id == it.id && r.user_id == uid) = [] := by
    refine List.filter_eq_nil_iff.mpr fun r hr => ?_
    simp only [Bool.and_eq_true, beq_iff_eq, not_and]
    intro hid2 hu
    exact hne (by rw [← hu, hid r hr hid2])
  have h2 : (store.filter (fun r => r.id != it.id)).filter
      (fun r => r.id == it.id && r.user_id == uid) = [] := by
    refine List.filter_eq_nil_iff.mpr fun r hr => ?_
    have hr2 := (List.mem_filter.mp hr).2
    simp only [bne_iff_ne, ne_eq] at hr2
    simp only [Bool.and_eq_true, beq_iff_eq, not_and]
    intro h
    exact absurd h hr2
  refine ⟨?_, ?_⟩
  · simp [items_get_one, selectSingle, h1]
  · simp [items_get_one, selectSingle, h1, h2]

/-- Witness for C2 at a concrete store and caller. -/
theorem C2_witness :
    items_get_one true "bob" 1 demo1 =
      ⟨404, none, some (.detail "Item not found"), some "Item could not be found.",
        none, none, none⟩ :=
  (C2_getone_cross_user demo1 itemA "bob" (by decide) (by decide) (by decide)).1

/-- C3: an authenticated List carries the exact count n of matching rows
from the separate count query, a page ordered by created_at descending
over the inclusive range so its length is min (max limit 1) (n - offset),
next = offset+limit exactly when offset+limit < n, and previous =
offset-limit exactly when offset > 0; with limit 2 and offset 0 over 5
stored items the handler returns 2 items, count 5, next 2 and no
previous. -/
theorem C3_list_pagination :
    (∀ (uid query : String) (store : List Item) (limit offset : ℤ),
      (list_core uid store limit offset query).count =
        some (store.filter (listMatch uid query)).length ∧
      (list_core uid store limit offset query).next =
        (if offset + limit < ((store.filter (listMatch uid query)).length : ℤ)
          then some (offset + limit) else none) ∧
      (list_core uid store limit offset query).previous =
        (if 0 < offset then some (offset - limit) else none) ∧
      (respItems (list_core uid store limit offset query)).Pairwise cge ∧
      (respItems (list_core uid store limit offset query)).length =
        min (max limit 1).toNat
          ((store.filter (listMatch uid query)).length - offset.toNat)) ∧
    items_list true "u" [("limit", JVal.str "2")] demo5 =
      ⟨200, some (.items [⟨5, "u", "e", "s5", none, none, some "safe", 5⟩,
                          ⟨4, "u", "d", "s4", none, none, some "safe", 4⟩]),
        none, none, some 5, some 2, none⟩ := by
  refine ⟨fun uid query store limit offset => ⟨rfl, rfl, rfl, ?_, ?_⟩, by decide⟩
  · exact (sortDesc_pairwise _).sublist (pageSlice_sublist _ _ _)
  · show (pageSlice (sortDesc _) _ _).length = _
    rw [length_pageSlice, length_sortDesc]

/-- C10: both the list and the search view fetch the data page over the
inclusive range from offset to max(offset+limit-1, offset), so the
requested span is always at least one row: the page length is
min (max limit 1) of the remaining rows, and concretely a request with
limit 0 against a one-item store still returns one item from either
endpoint. -/
theorem C10_inclusive_range_spans_one :
    (∀ (rows : List Item) (offset limit : ℤ),
      (pageSlice rows offset limit).length =
        min (max limit 1).toNat (rows.length - offset.toNat) ∧
      1 ≤ (max limit 1).toNat) ∧
    items_list true "u" [("limit", JVal.str "0")] demo1 =
      ⟨200, some (.items [itemA]), none, none, some 1, some 0, none⟩ ∧
    search_registry [("limit", JVal.str "0")] demo1 =
      (⟨200, some (.items [itemA]), none, some "Registry search completed.", some 1,
        some 0, none⟩, [.countQ, .selectList]) := by
  refine ⟨fun rows offset limit => ⟨length_pageSlice rows offset limit, by omega⟩,
    by decide, by decide⟩

/-- C4: fee and status validation are asymmetric.  A non-numeric fee
string coerces to no value instead of erring, and a create whose fee is
the string abc succeeds with a null fee in the inserted record; while a
present status key whose value fails enum validation makes the whole
build fail with the invalid-status error, both for updates (no required
fields) and for creates whose required fields are present. -/
theorem C4_fee_lenient_status_strict :
    coerce_fee (JVal.str "abc") = none ∧
    items_post true "u" [("name", JVal.str "a"), ("serial_number", JVal.str "b"),
        ("fee", JVal.str "abc")] "T" =
      (⟨201, some (.row [("name", JVal.str "a"), ("serial_number", JVal.str "b"),
          ("fee", JVal.null), ("updated_at", JVal.str "T"), ("user_id", JVal.str "u")]),
        none, some "Item created successfully.", none, none, none⟩,
       [.insertRow [("name", JVal.str "a"), ("serial_number", JVal.str "b"),
          ("fee", JVal.null), ("updated_at", JVal.str "T"), ("user_id", JVal.str "u")]]) ∧
    (∀ (data : FieldMap) (now : String) (v : JVal) (nm sn : String),
      pyGet data "status" = some v → validate_status v = none →
      getFieldStr data "name" = some nm →
      getFieldStr data "serial_number" = some sn →
      build_payload data false now =
        .err (.detail "Invalid status. Must be one of: safe, stolen, unknown")) ∧
    (∀ (data : FieldMap) (now : String) (v : JVal) (nm sn : String),
      pyGet data "status" = some v → validate_status v = none →
      getFieldStr data "name" = some nm → pyStrip nm ≠ "" →
      getFieldStr data "serial_number" = some sn → pyStrip sn ≠ "" →
      build_payload data true now =
        .err (.detail "Invalid status. Must be one of: safe, stolen, unknown")) ∧
    items_post true "u" [("name", JVal.str "a"), ("serial_number", JVal.str "b"),
        ("status", JVal.str "lost")] "T" =
      (⟨400, none, some (.detail "Invalid status. Must be one of: safe, stolen, unknown"),
        none, none, none, none⟩, []) ∧
    items_patch true "u" (some 1) [("status", JVal.str "lost")] "T" demo1 =
      (⟨400, none, some (.detail "Invalid status. Must be one of: safe, stolen, unknown"),
        none, none, none, none⟩, [.selectOne 1 "u"]) := by
  refine ⟨by decide, by decide, ?_, ?_, by decide, by decide⟩
  · intro data now v nm sn hs hv hn hsn
    simp [build_payload, hn, hsn, hs, hv]
  · intro data now v nm sn hs hv hn hne1 hsn hne2
    simp [build_payload, hn, hsn, hs, hv, hne1, hne2]

/-- Witness for C4 at concrete invalid-status payloads. -/
theorem C4_witness :
    build_payload [("status", JVal.str "lost")] false "T" =
      .err (.detail "Invalid status. Must be one of: safe, stolen, unknown") ∧
    build_payload [("name", JVal.str "a"), ("serial_number", JVal.str "b"),
        ("status", JVal.str "lost")] true "T" =
      .err (.detail "Invalid status. Must be one of: safe, stolen, unknown") :=
  ⟨C4_fee_lenient_status_strict.2.2.1 _ "T" (JVal.str "lost") "" ""
      (by decide) (by decide) (by decide) (by decide),
   C4_fee_lenient_status_strict.2.2.2.1 _ "T" (JVal.str "lost") "a" "b"
      (by decide) (by decide) (by decide) (by decide) (by decide) (by decide)⟩

/-- C5: whenever the verify handler reports a transaction with a 200
response, the verified flag is true exactly when the reported status is
success and the reported amount reaches the fixed fee in minor units
(100 NGN = 10000 kobo); concretely a success with amount 5000 is not
verified. -/
theorem C5_verify_amount_threshold :
    (∀ (gs ga : Option JVal) (vb : Bool) (vs : String) (va : ℤ),
      paystack_verify true gs ga =
        ⟨200, some (.verify vb vs va), none, some "Verification complete",
          none, none, none⟩ →
      (vb = true ↔ vs = "success" ∧ FEE_NGN * 100 ≤ va)) ∧
    paystack_verify true (some (JVal.str "success")) (some (JVal.num ((5000 : ℤ) : ℚ))) =
      ⟨200, some (.verify false "success" 5000), none, some "Verification complete",
        none, none, none⟩ := by
  constructor
  · intro gs ga vb vs va h
    unfold paystack_verify at h
    simp only [if_true] at h
    split at h
    · split at h
      · simp [resp500] at h
      · simp only [Resp.mk.injEq, Option.some.injEq, RData.verify.injEq] at h
        obtain ⟨-, ⟨hb, hsv, hav⟩, -⟩ := h
        subst hb hsv hav
        simp [Bool.and_eq_true, beq_iff_eq, decide_eq_true_iff]
    · simp [resp500] at h
  · decide

/-- Witness for C5 at a verified concrete transaction. -/
theorem C5_witness :
    (true = true ↔ "success" = "success" ∧ FEE_NGN * 100 ≤ (15000 : ℤ)) :=
  C5_verify_amount_threshold.1 (some (JVal.str "success"))
    (some (JVal.num ((15000 : ℤ) : ℚ))) true "success" 15000 (by decide)

/-- C6: a supplied search status that is non-empty after trimming and
lower-casing and outside the enum makes the search fail with the
invalid-status 400 response, whatever the other filters carry, with no
store call executed. -/
theorem C6_search_invalid_status (data : FieldMap) (store : List Item)
    (qR cR sR snR : String)
    (hq : getFieldStr data "query" = some qR)
    (hc : getFieldStr data "category" = some cR)
    (hs : getFieldStr data "status" = some sR)
    (hsn : getFieldStr data "serial_number" = some snR)
    (hne : pyLower (pyStrip sR) ≠ "")
    (hnotin : pyLower (pyStrip sR) ∉ allowedStatus) :
    search_registry data store =
      (⟨400, none, some (.detail "Invalid status. Must be one of: safe, stolen, unknown"),
        none, none, none, none⟩, []) := by
  unfold search_registry
  rw [hq, hc, hs, hsn]
  simp only [search_core, if_pos (And.intro hne hnotin)]

/-- Witness for C6 at a concrete bogus status with other filters set. -/
theorem C6_witness :
    search_registry [("status", JVal.str "bogus"), ("query", JVal.str "bike")] demo1 =
      (⟨400, none, some (.detail "Invalid status. Must be one of: safe, stolen, unknown"),
        none, none, none, none⟩, []) :=
  C6_search_invalid_status _ _ "bike" "" "bogus" ""
    (by decide) (by decide) (by decide) (by decide) (by decide) (by decide)

/-- C7: a create whose name or serial_number is missing or empty after
trimming fails with the missing-fields error naming exactly the missing
ones, and no store call is attempted; the payload with only a description
yields the fields name and serial_number. -/
theorem C7_create_missing_fields :
    (∀ (data : FieldMap) (now : String) (nm sn : String) (uid : String),
      getFieldStr data "name" = some nm →
      getFieldStr data "serial_number" = some sn →
      (pyStrip nm = "" ∨ pyStrip sn = "") →
      items_post true uid data now =
        (⟨400, none, some (.fields "Missing required field(s)"
            ((if pyStrip nm = "" then ["name"] else []) ++
             (if pyStrip sn = "" then ["serial_number"] else []))),
          none, none, none, none⟩, [])) ∧
    items_post true "u" [("description", JVal.str "x")] "T" =
      (⟨400, none, some (.fields "Missing required field(s)" ["name", "serial_number"]),
        none, none, none, none⟩, []) := by
  constructor
  · intro data now nm sn uid hn hsn hmiss
    have hb : build_payload data true now = .err (.fields "Missing required field(s)"
        ((if pyStrip nm = "" then ["name"] else []) ++
         (if pyStrip sn = "" then ["serial_number"] else []))) := by
      rcases hmiss with h | h
      · by_cases h2 : pyStrip sn = ""
        · simp [build_payload, hn, hsn, h, h2]
        · simp [build_payload, hn, hsn, h, h2]
      · by_cases h1 : pyStrip nm = ""
        · simp [build_payload, hn, hsn, h, h1]
        · simp [build_payload, hn, hsn, h, h1]
    simp [items_post, hb]
  · decide

/-- Witness for C7 at the description-only payload. -/
theorem C7_witness :
    items_post true "u" [("description", JVal.str "x")] "T" =
      (⟨400, none, some (.fields "Missing required field(s)" ["name", "serial_number"]),
        none, none, none, none⟩, []) :=
  C7_create_missing_fields.1 [("description", JVal.str "x")] "T" "" "" "u"
    (by decide) (by decide) (Or.inl (by decide))

/-- pct with a zero total is zero. -/
theorem pct_zero_total (n : ℕ) : pct n 0 = 0 := by
  simp [pct]

/-- C8: the summary ratios are each status count over the total as a
percentage rounded to two decimal places when the total is positive, and
all zero when the user has no items; a user with three items, two safe
and one stolen, gets totals 3/2/1/0 and ratios 66.67, 33.33 and 0. -/
theorem C8_summary_ratios :
    (∀ (uid : String) (store : List Item),
      (store.filter (fun r => r.user_id == uid)).length = 0 →
      analytics_core true uid store =
        ⟨200, some (.analytics 0 0 0 0 0 0 0), none,
          some "Items analytics fetched successfully.", none, none, none⟩) ∧
    (∀ (uid : String) (store : List Item),
      0 < (store.filter (fun r => r.user_id == uid)).length →
      analytics_core true uid store =
        ⟨200, some (.analytics
          (store.filter (fun r => r.user_id == uid)).length
          (store.filter (fun r => r.user_id == uid && r.status == some "safe")).length
          (store.filter (fun r => r.user_id == uid && r.status == some "stolen")).length
          (store.filter (fun r => r.user_id == uid && r.status == some "unknown")).length
          (round2
            (((store.filter (fun r => r.user_id == uid && r.status == some "safe")).length : ℚ) /
              ((store.filter (fun r => r.user_id == uid)).length : ℚ) * 100))
          (round2
            (((store.filter (fun r => r.user_id == uid && r.status == some "stolen")).length : ℚ) /
              ((store.filter (fun r => r.user_id == uid)).length : ℚ) * 100))
          (round2
            (((store.filter (fun r => r.user_id == uid && r.status == some "unknown")).length : ℚ) /
              ((store.filter (fun r => r.user_id == uid)).length : ℚ) * 100))), none,
          some "Items analytics fetched successfully.", none, none, none⟩) ∧
    analytics_core true "u" demo3 =
      ⟨200, some (.analytics 3 2 1 0 (pct 2 3) (pct 1 3) (pct 0 3)), none,
        some "Items analytics fetched successfully.", none, none, none⟩ ∧
    pct 2 3 = 6667/100 ∧ pct 1 3 = 3333/100 ∧ pct 0 3 = 0 := by
  refine ⟨?_, ?_, by rfl, ?_, ?_, ?_⟩
  · intro uid store h
    have hnil := List.length_eq_zero.mp h
    have hforall := List.filter_eq_nil_iff.mp hnil
    have hs : ∀ q : Item → Bool,
        store.filter (fun r => (r.user_id == uid) && q r) = [] := by
      intro q
      refine List.filter_eq_nil_iff.mpr fun r hr => ?_
      simp only [Bool.and_eq_true, not_and]
      intro hp _
      exact hforall r hr hp
    simp [analytics_core, hnil, hs, pct_zero_total]
  · intro uid store h
    simp [analytics_core, pct, if_pos h]
  · have h1 : ⌊((2 : ℚ)/3 * 100 * 100)⌋ = 6666 := by
      rw [Int.floor_eq_iff] <;> norm_num
    simp only [pct, round2, roundHE, if_pos (by norm_num : 0 < 3)]
    rw [show ((2 : ℕ) : ℚ)/((3 : ℕ) : ℚ) * 100 * 100 = (2 : ℚ)/3 * 100 * 100 by norm_num, h1]
    norm_num
  · have h1 : ⌊((1 : ℚ)/3 * 100 * 100)⌋ = 3333 := by
      rw [Int.floor_eq_iff] <;> norm_num
    simp only [pct, round2, roundHE, if_pos (by norm_num : 0 < 3)]
    rw [show ((1 : ℕ) : ℚ)/((3 : ℕ) : ℚ) * 100 * 100 = (1 : ℚ)/3 * 100 * 100 by norm_num, h1]
    norm_num
  · simp only [pct, round2, roundHE]
    norm_num

/-- Witness for C8 at a user with no items. -/
theorem C8_witness :
    analytics_core true "u" [] =
      ⟨200, some (.analytics 0 0 0 0 0 0 0), none,
        some "Items analytics fetched successfully.", none, none, none⟩ :=
  C8_summary_ratios.1 "u" [] rfl

/-- C9 counterexample: a PATCH of an owned item with an invalid status is
answered with a 400 validation error, yet the existence and ownership
select has already been attempted, so a validation-error response is not
always free of store calls. -/
theorem C9_counterexample_update_reads_store :
    (items_patch true "u" (some 1) [("status", JVal.str "bogus")] "T" demo1).1 =
      ⟨400, none, some (.detail "Invalid status. Must be one of: safe, stolen, unknown"),
        none, none, none, none⟩ ∧
    (items_patch true "u" (some 1) [("status", JVal.str "bogus")] "T" demo1).2 =
      [.selectOne 1 "u"] := by
  decide

/-- C9 amended: a 400 response from Create or Search is produced with no
store call; a 400 from Update (PATCH or PUT) is produced after at most
the single existence and ownership read and never any write; the only
400 of Delete is produced with no store call. -/
theorem C9_validation_errors_and_store_calls :
    (∀ (uid : String) (data : FieldMap) (now : String),
      (items_post true uid data now).1.status_code = 400 →
      (items_post true uid data now).2 = []) ∧
    (∀ (data : FieldMap) (store : List Item),
      (search_registry data store).1.status_code = 400 →
      (search_registry data store).2 = []) ∧
    (∀ (rq : Bool) (uid : String) (oid : Option ℕ) (data : FieldMap) (now : String)
        (store : List Item),
      (items_patch_put rq true uid oid data now store).1.status_code = 400 →
      (items_patch_put rq true uid oid data now store).2 = [] ∨
        ∃ i, (items_patch_put rq true uid oid data now store).2 = [.selectOne i uid]) ∧
    (∀ (uid : String) (oid : Option ℕ) (store : List Item),
      (items_delete true uid oid store).1.status_code = 400 →
      (items_delete true uid oid store).2 = []) := by
  refine ⟨?_, ?_, ?_, ?_⟩
  · intro uid data now h
    rcases hb : build_payload data true now with _ | e | p <;>
      simp [items_post, hb] at h ⊢
  · intro data store h
    unfold search_registry at h ⊢
    split at h
    · unfold search_core at h ⊢
      split at h
      · rw [if_pos ‹_›]
      · simp at h
    · simp [resp500] at h
  · intro rq uid oid data now store h
    rcases oid with _ | iid
    · left
      rfl
    · rcases hsel : selectSingle store iid uid with _ | it
      · simp [items_patch_put, hsel] at h
      · rcases hb : build_payload data rq now with _ | e | p
        · simp [items_patch_put, hsel, hb, resp500] at h
        · right
          exact ⟨iid, by simp [items_patch_put, hsel, hb]⟩
        · by_cases hp : p.isEmpty
          · right
            exact ⟨iid, by simp [items_patch_put, hsel, hb, hp]⟩
          · simp [items_patch_put, hsel, hb, hp] at h
            split at h <;> simp at h
  · intro uid oid store h
    rcases oid with _ | iid
    · rfl
    · rcases hsel : selectSingle store iid uid with _ | it <;>
        simp [items_delete, hsel] at h ⊢

/-- Witness for C9 amended, at a concrete 400 create. -/
theorem C9_witness :
    (items_post true "u" [] "T").1.status_code = 400 ∧
    (items_post true "u" [] "T").2 = [] :=
  ⟨by decide, C9_validation_errors_and_store_calls.1 "u" [] "T" (by decide)⟩

end Catcher
